import Mathlib

/-!
Verification development for the `rag-pipeline-aws` repository.

The Python sources under `src/functions/` are shallowly embedded as executable
Lean definitions.  Remote services (OpenAI HTTP endpoints, the Qdrant vector
index, the relational store, S3, AWS Lambda invocation) are external
collaborators of the program; they are modelled as explicit oracle parameters
so that theorems can quantify over every possible behaviour of the remote
side.  Machine floats of the Python code are modelled as exact rationals, and
fallible Python code (try/except, raised exceptions) is modelled with
`Option`/`Except` values that mirror the source's exception flow.
-/

namespace RagPipeline

/-! ## Python string/list helpers -/

/-- Normalisation of one Python slice endpoint for a list of length `n`:
a negative index counts from the end (clamped at 0), a non-negative index is
clamped at `n`. -/
def pySliceNorm (n : Nat) (x : Int) : Nat :=
  if x < 0 then (x + n).toNat else min x.toNat n

/-- Python list slice `l[a:b]` (step 1), with full negative-index semantics. -/
def pySlice {α : Type} (l : List α) (a b : Int) : List α :=
  (l.take (pySliceNorm l.length b)).drop (pySliceNorm l.length a)

/-- Truthiness of the Python expression `" ".join(words).strip()`:
the stripped join is non-empty exactly when some word contains a
non-whitespace character (the joining spaces themselves are whitespace). -/
def joinStripTruthy (ws : List String) : Bool :=
  ws.any (fun w => w.toList.any (fun c => !c.isWhitespace))

/-- Python substring containment `needle in haystack`: the needle's character
list occurs contiguously inside the haystack's character list. -/
def pySubstr (needle haystack : String) : Bool :=
  (List.range (haystack.toList.length + 1)).any
    (fun i => needle.toList.isPrefixOf (haystack.toList.drop i))

/-! ## Chunking Engine — `ProcessAndEmbed.chunk_text`
(`src/functions/process_and_embeds/lambda_function.py`, lines 279-308;
the copy in `src/functions/process_and_embeds/main.py` lines 192-221 is
textually identical).

The function first cleans the text and splits it on whitespace
(`words = cleaned_text.split()`).  The embedding operates on that word list
directly; an emitted chunk is the word slice `words[start:end]`, joined with
single spaces at the output boundary (`" ".join(chunk_words)`).

The Python `while` loop is not structurally terminating (for
`overlap >= window_size` the increment `window_size - overlap` is `<= 0`), so
the loop is embedded with an explicit iteration budget `fuel`; `none` means
the loop is still running after `fuel` iterations.  The source's trailing
`if start >= len(words): break` re-tests exactly the `while` condition, so the
loop body is one iteration of `chunkGo`. -/
def chunkGo (words : List String) (window_size overlap : Int) :
    Nat → Int → Option (List (List String))
  | 0, start =>
    if start < (words.length : Int) then none else some []
  | fuel + 1, start =>
    if start < (words.length : Int) then
      let e : Int := min (start + window_size) (words.length : Int)
      let chunk_words := pySlice words start e
      match chunkGo words window_size overlap fuel (start + (window_size - overlap)) with
      | none => none
      | some rest =>
        some ((if joinStripTruthy chunk_words then [chunk_words] else []) ++ rest)
    else some []

/-- Embedding of `chunk_text` on the whitespace-tokenized cleaned word list.
If the input has at most `window_size` words the whole cleaned text is the
single chunk; otherwise the sliding-window loop runs, with `fuel` bounding its
iterations (`none` = the Python loop has not terminated within `fuel`
iterations). -/
def chunk_text (words : List String) (window_size overlap : Int) (fuel : Nat) :
    Option (List (List String)) :=
  if (words.length : Int) ≤ window_size then some [words]
  else chunkGo words window_size overlap fuel 0

/-! ## Usage Ledger — `OpenAICostTracker`
(`src/functions/building_chat/cost_tracker.py`). -/

/-- Token usage dictionary returned by the OpenAI API; each key may be
absent (the code guards every access with `in` / `.get`). -/
structure Usage where
  prompt_tokens : Option Nat := none
  completion_tokens : Option Nat := none
  total_tokens : Option Nat := none
deriving DecidableEq, Repr

/-- One entry of the `PRICING` table: per-token dollar rate keys `input` /
`output`, either possibly absent (the embedding model has no `output` key). -/
structure ModelPricing where
  input : Option ℚ := none
  output : Option ℚ := none
deriving DecidableEq, Repr

/-- The class attribute `OpenAICostTracker.PRICING`
(`cost_tracker.py` lines 9-17).  The numeric literals are exactly the
source's floats (they are decimally representable); the source comments
document them as "$0.40 per 1M input tokens" and "$1.60 per 1M output tokens"
for `gpt-4o-mini` and "$0.02 per 1M input tokens" for the embedding model. -/
def PRICING (model : String) : Option ModelPricing :=
  if model = "gpt-4o-mini" then
    some { input := some 0.00040, output := some 0.00160 }
  else if model = "text-embedding-3-small" then
    some { input := some 0.00002 }
  else none

/-- `OpenAICostTracker._calculate_cost` (lines 59-78): unknown model gives 0;
otherwise each of the input/output components contributes
`(tokens / 1_000_000) * rate` when both the usage key and the pricing key are
present. -/
def calculate_cost (model : String) (usage : Usage) : ℚ :=
  match PRICING model with
  | none => 0
  | some pricing =>
    let input_cost : ℚ :=
      match usage.prompt_tokens, pricing.input with
      | some pt, some rate => ((pt : ℚ) / 1000000) * rate
      | _, _ => 0
    let output_cost : ℚ :=
      match usage.completion_tokens, pricing.output with
      | some ct, some rate => ((ct : ℚ) / 1000000) * rate
      | _, _ => 0
    input_cost + output_cost

/-- One record appended to `self.api_calls` by `log_api_call`
(the `request_data`/`response_data` echoes and the wall-clock timestamp are
payload irrelevant to the ledger invariant and are not modelled). -/
structure CallRecord where
  api_type : String
  model : String
  usage : Usage
  cost_usd : ℚ
deriving DecidableEq, Repr

/-- Mutable state of one `OpenAICostTracker` instance
(`session_start_time` is wall-clock time and not modelled). -/
structure TrackerState where
  total_cost : ℚ
  api_calls : List CallRecord
deriving DecidableEq, Repr

/-- The `__init__` state of the tracker. -/
def initialTracker : TrackerState := { total_cost := 0, api_calls := [] }

/-- `OpenAICostTracker.log_api_call` (lines 24-57): computes the cost,
appends the call record, accumulates the total and returns the cost.  Every
operation in its `try` body is total, so the `except` branch (return `0.0`)
is unreachable. -/
def log_api_call (st : TrackerState) (api_type model : String) (usage : Usage) :
    ℚ × TrackerState :=
  let cost := calculate_cost model usage
  (cost,
    { total_cost := st.total_cost + cost,
      api_calls := st.api_calls ++
        [{ api_type := api_type, model := model, usage := usage, cost_usd := cost }] })

/-- `OpenAICostTracker.reset_session` (lines 124-128). -/
def reset_session (_st : TrackerState) : TrackerState := initialTracker

/-- One operation on the ledger. -/
inductive TrackerOp where
  | log (api_type model : String) (usage : Usage)
  | reset
deriving DecidableEq, Repr

/-- Apply one operation to the tracker state. -/
def trackerStep (st : TrackerState) : TrackerOp → TrackerState
  | .log api_type model usage => (log_api_call st api_type model usage).2
  | .reset => reset_session st

/-- Run a sequence of operations from the initial state. -/
def runTracker (ops : List TrackerOp) : TrackerState :=
  ops.foldl trackerStep initialTracker

/-! ## Intent Classifier — `ContextClassifier`
(`src/functions/building_chat/context_classifier.py`). -/

/-- Result dictionary of one classification.  `classify` either builds this
dictionary itself (fallback path, all keys present) or returns whatever JSON
object `json.loads` produced from the model's reply, in which case any key
may be absent; each field is therefore optional.  `confidence` is modelled as
an exact rational. -/
structure ClassDict where
  context_type : Option String := none
  confidence : Option ℚ := none
  reason : Option String := none
  requires_file_processing : Option Bool := none
  suggested_actions : Option (List String) := none
deriving DecidableEq, Repr

/-- The five keyword lists of `ContextClassifier._fallback_classification`
(lines 121, 129, 137, 145), in the source's test order. -/
def file_keywords : List String := ["file", "document", "upload", "this", "summarize"]

/-- Keywords of the building branch of the fallback classifier. -/
def building_keywords : List String := ["building", "energy", "bills", "measures"]

/-- Keywords of the organization branch of the fallback classifier. -/
def organization_keywords : List String :=
  ["organization", "company", "all buildings", "portfolio"]

/-- Keywords of the vector-search branch of the fallback classifier. -/
def vector_keywords : List String :=
  ["previous", "historical", "past", "reports", "find", "search", "analysis"]

/-- `ContextClassifier._fallback_classification` (lines 116-160): lower-case
the message and test the four keyword lists in order with Python's
`any(word in message_lower for word in …)`; the final `else` returns the
general record. -/
def fallback_classification (message : String) : ClassDict :=
  let message_lower := message.toLower
  if file_keywords.any (fun w => pySubstr w message_lower) then
    { context_type := some "file_context", confidence := some 0.7,
      reason := some "Fallback: detected file-related keywords",
      requires_file_processing := some true,
      suggested_actions := some ["process_file", "extract_content"] }
  else if building_keywords.any (fun w => pySubstr w message_lower) then
    { context_type := some "building_context", confidence := some 0.7,
      reason := some "Fallback: detected building-related keywords",
      requires_file_processing := some false,
      suggested_actions := some ["fetch_building_data"] }
  else if organization_keywords.any (fun w => pySubstr w message_lower) then
    { context_type := some "organization_context", confidence := some 0.7,
      reason := some "Fallback: detected organization-related keywords",
      requires_file_processing := some false,
      suggested_actions := some ["fetch_org_data"] }
  else if vector_keywords.any (fun w => pySubstr w message_lower) then
    { context_type := some "vector_context", confidence := some 0.7,
      reason := some "Fallback: detected vector search keywords",
      requires_file_processing := some false,
      suggested_actions := some ["search_vector_store"] }
  else
    { context_type := some "general", confidence := some 0.6,
      reason := some "Fallback: no specific context detected",
      requires_file_processing := some false,
      suggested_actions := some ["general_response"] }

/-- Behaviour of the remote classification call (`requests.post` to the
completion API plus `json.loads` of the returned content) as seen by
`classify`:
* `raised` — the transport raised (timeout, connection error), or the
  response body lacked the `choices`/`message`/`content` keys (`KeyError`);
  both are caught by the outer `except` of `classify`;
* `httpError` — the response arrived with `not response.ok`;
* `ok none` — HTTP success but `json.loads(content)` raised
  `json.JSONDecodeError`;
* `ok (some d)` — HTTP success and the content parsed as the JSON object `d`
  (any subset of keys may be present; nothing is validated). -/
inductive ClassifierRemote where
  | raised
  | httpError
  | ok (parsed : Option ClassDict)
deriving DecidableEq, Repr

/-- `ContextClassifier.classify` (lines 51-114).  The message/history prompt
assembly only feeds the remote call and cannot raise; every failure of the
remote path funnels into `_fallback_classification`, while a successfully
parsed JSON object is returned as-is (no schema validation). -/
def classify (remote : ClassifierRemote) (message : String) : ClassDict :=
  match remote with
  | .raised => fallback_classification message
  | .httpError => fallback_classification message
  | .ok none => fallback_classification message
  | .ok (some parsed) => parsed

/-- Well-formedness of a `ClassificationResult` in the sense of claim C6:
`context_type` is one of the five labels and `confidence` lies in `[0, 1]`. -/
def IsWellFormedClassification (d : ClassDict) : Prop :=
  (∃ t, d.context_type = some t ∧
    t ∈ ["file_context", "building_context", "organization_context",
         "vector_context", "general"]) ∧
  (∃ c, d.confidence = some c ∧ 0 ≤ c ∧ c ≤ 1)

/-- Keyword fallback classifier written from the words of claim C7, for the
refinement comparison: lower-case the message, test the file-related,
building-related, organization-related, then historical/vector-related
keyword sets in that priority order, return confidence 0.7 for a keyword
match and 0.6 for the general default, with a reason stating fallback. -/
def keywordFallbackSpec (message : String) : ClassDict :=
  let lowered := message.toLower
  let matched := fun (kws : List String) => kws.any (fun w => pySubstr w lowered)
  if matched file_keywords then
    { context_type := some "file_context", confidence := some 0.7,
      reason := some "Fallback: detected file-related keywords",
      requires_file_processing := some true,
      suggested_actions := some ["process_file", "extract_content"] }
  else if matched building_keywords then
    { context_type := some "building_context", confidence := some 0.7,
      reason := some "Fallback: detected building-related keywords",
      requires_file_processing := some false,
      suggested_actions := some ["fetch_building_data"] }
  else if matched organization_keywords then
    { context_type := some "organization_context", confidence := some 0.7,
      reason := some "Fallback: detected organization-related keywords",
      requires_file_processing := some false,
      suggested_actions := some ["fetch_org_data"] }
  else if matched vector_keywords then
    { context_type := some "vector_context", confidence := some 0.7,
      reason := some "Fallback: detected vector search keywords",
      requires_file_processing := some false,
      suggested_actions := some ["search_vector_store"] }
  else
    { context_type := some "general", confidence := some 0.6,
      reason := some "Fallback: no specific context detected",
      requires_file_processing := some false,
      suggested_actions := some ["general_response"] }

/-! ## Vector Index — points, filters and filtered query

The index points are the `PointStruct` payloads built by
`RAGPipeline.process_and_store`
(`src/functions/embed_and_index/lambda_function.py` lines 262-278); the query
filters are the `Filter`/`FieldCondition`/`MatchValue` trees built by
`ContextResolver._search_vector_store` and `_search_vector_store_all_docs`
(`src/functions/building_chat/context_resolver.py` lines 319-416).  The Qdrant
service itself is an external collaborator, so its query evaluation is
modelled from the spec (§4.3). -/

/-- A Qdrant match value: the code matches on integer ids (`org_id`,
`building_id`) and string ids (`file_id`). -/
inductive QValue where
  | int (n : Int)
  | str (s : String)
deriving DecidableEq, Repr

/-- Payload of an indexed point, exactly the dictionary built at
`embed_and_index/lambda_function.py` lines 267-277. -/
structure QPayload where
  org_id : Int
  building_id : Int
  file_id : String
  text : String
  page : Nat
  custom_id : String
  word_count : Nat
  source : String
  chunk_index : Nat
deriving DecidableEq, Repr

/-- Key lookup on a payload, giving the value a `FieldCondition` on that key
is matched against. -/
def QPayload.get (p : QPayload) (key : String) : Option QValue :=
  if key = "org_id" then some (.int p.org_id)
  else if key = "building_id" then some (.int p.building_id)
  else if key = "file_id" then some (.str p.file_id)
  else if key = "text" then some (.str p.text)
  else if key = "custom_id" then some (.str p.custom_id)
  else if key = "chunk_index" then some (.int p.chunk_index)
  else none

/-- One member of a filter's `must` list as constructed by the resolver:
either a `FieldCondition(key, MatchValue(value))`, or a nested
`Filter(should=[FieldCondition …])` (the file-id OR-clause).  The resolver
never nests deeper than this, so the embedding fixes that shape. -/
inductive QMustItem where
  | fieldCond (key : String) (value : QValue)
  | shouldFilter (should : List (String × QValue))
deriving DecidableEq, Repr

/-- A query filter: the conjunction of its `must` items. -/
structure QFilter where
  must : List QMustItem
deriving DecidableEq, Repr

/-- Modelled from the spec: §4.3 — a `must` item is satisfied when the
field condition matches exactly, and a nested should-clause is satisfied when
at least one of its field conditions matches (OR semantics). -/
def satisfiesMustItem (p : QPayload) : QMustItem → Bool
  | .fieldCond key v => p.get key == some v
  | .shouldFilter should => should.any (fun kv => p.get kv.1 == some kv.2)

/-- Modelled from the spec: §4.3 — a point satisfies a filter when every
`must` item is satisfied (AND semantics). -/
def satisfiesFilter (p : QPayload) (f : QFilter) : Bool :=
  f.must.all (satisfiesMustItem p)

/-- An indexed point: id, vector and payload.  `score` is the similarity
score the index service attaches when the point is returned from a query
(external to the program, carried here so query results can echo it). -/
structure QPoint where
  id : String
  vector : List ℚ
  payload : QPayload
  score : ℚ := 0
deriving DecidableEq, Repr

/-- Modelled from the spec: §4.3 — `query_points` of the external Qdrant
client returns at most `limit` points matching the filter, ordered by
descending similarity.  The ordering is index-internal and must not be relied
upon, so the model keeps the index order; every membership property proved
about the result is ordering-independent. -/
def query_points (index : List QPoint) (q_filter : QFilter) (limit : Nat) :
    List QPoint :=
  (index.filter (fun pt => satisfiesFilter pt.payload q_filter)).take limit

/-- Filter built by `ContextResolver._search_vector_store` (lines 325-338):
`must` starts with the two tenant conditions; when `file_ids` is truthy
(non-empty) a nested `Filter(should=[file_id == f …])` is appended to
`must`. -/
def buildFileSearchFilter (org_id building_id : Int) (file_ids : List String) :
    QFilter :=
  let must_filters : List QMustItem :=
    [.fieldCond "org_id" (.int org_id),
     .fieldCond "building_id" (.int building_id)]
  if file_ids.isEmpty then { must := must_filters }
  else
    { must := must_filters ++
        [.shouldFilter (file_ids.map (fun fid => ("file_id", QValue.str fid)))] }

/-- Filter built by `ContextResolver._search_vector_store_all_docs`
(lines 378-384): only the two tenant conditions, no file restriction. -/
def buildAllDocsFilter (org_id building_id : Int) : QFilter :=
  { must := [.fieldCond "org_id" (.int org_id),
             .fieldCond "building_id" (.int building_id)] }

/-- Chunk dictionary assembled from one returned point
(`context_resolver.py` lines 356-364): the query asks for payload fields
`text`, `chunk_index` and `file_id` only. -/
structure RetrievedChunk where
  text : String
  score : ℚ
  chunk_index : Option Nat
  file_id : Option String
deriving DecidableEq, Repr

/-- Projection of a returned point to the chunk dictionary. -/
def pointToChunk (pt : QPoint) : RetrievedChunk :=
  { text := pt.payload.text, score := pt.score,
    chunk_index := some pt.payload.chunk_index,
    file_id := some pt.payload.file_id }

/-! ## Context Resolver — `ContextResolver`
(`src/functions/building_chat/context_resolver.py`).

Database rows are delivered by the external relational store; the embedding
carries them in a `ResolverEnv` oracle, with rendered column values as
strings (`RealDictCursor` rows; a NULL column is modelled as `none` and
rendered through the code's `.get(key, default)` accesses).  The SQL `ORDER
BY … LIMIT n` runs server-side: the oracle lists are the ordered query
results and the model applies the `LIMIT` as a `take`. -/

/-- Row of `buildings` used by `_resolve_building_context`. -/
structure BuildingRow where
  building_name : String
  address : Option String := none
  building_type : Option String := none
  gross_floor_area : Option String := none
  year_built : Option String := none
deriving DecidableEq, Repr

/-- Row of `measures`. -/
structure MeasureRow where
  measure_name : String
  status : String
deriving DecidableEq, Repr

/-- Row of `espm_data` (energy readings). -/
structure EspmRow where
  start_date : String
  usage_quantity : Option String := none
  usage_units : Option String := none
deriving DecidableEq, Repr

/-- Row of `bills`. -/
structure BillRow where
  bill_date : String
  bill_type : String
  amount : Option String := none
deriving DecidableEq, Repr

/-- Row of `organizations` used by `_resolve_organization_context`. -/
structure OrgRow where
  org_name : String
  admin_email : String
  address : Option String := none
deriving DecidableEq, Repr

/-- Row of the per-organization `buildings` listing. -/
structure OrgBuildingRow where
  building_name : String
  building_type : Option String := none
deriving DecidableEq, Repr

/-- Aggregate row of the portfolio metrics query; `total_area` and
`avg_year_built` are SQL aggregates that may be NULL (falsy in the code's
`if metrics['total_area']:` test). -/
structure MetricsRow where
  total_buildings : Nat := 0
  total_area : Option String := none
  avg_year_built : Option String := none
deriving DecidableEq, Repr

/-- External-world oracle for one `resolve_context` call: the outcome of the
embedding HTTP call, the vector index content and health, and the relational
rows in scope for the requesting tenant. -/
structure ResolverEnv where
  /-- Outcome of `_get_embedding` (lines 278-317): the query vector, or the
  message of the exception it re-raises on transport/HTTP/cost-log failure. -/
  embedOutcome : Except String (List ℚ) := .ok []
  /-- Points stored in the external vector index collection. -/
  index : List QPoint := []
  /-- True when the Qdrant client/search raises; both search helpers catch
  any such exception and return `[]` (lines 368-370, 414-416). -/
  qdrantRaises : Bool := false
  /-- Message of the exception raised by `get_db_connection` or a cursor
  operation, if any; `none` means the database path succeeds. -/
  dbRaises : Option String := none
  /-- `buildings` row for `(building_id, org_id)`, if present. -/
  buildingRow : Option BuildingRow := none
  /-- `measures` rows ordered by `created_at DESC` (before `LIMIT 10`). -/
  measures : List MeasureRow := []
  /-- `espm_data` rows ordered by `start_date DESC` (before `LIMIT 12`). -/
  espmData : List EspmRow := []
  /-- `bills` rows ordered by `bill_date DESC` (before `LIMIT 12`). -/
  bills : List BillRow := []
  /-- `organizations` row for `org_id`, if present. -/
  orgRow : Option OrgRow := none
  /-- Per-organization `buildings` rows ordered by name. -/
  orgBuildings : List OrgBuildingRow := []
  /-- Aggregate metrics row of the portfolio query. -/
  orgMetrics : MetricsRow := {}

/-- The context bundle dictionary returned by the resolver.  Fields absent
from a given return dictionary keep their defaults (`.get` on the Python side
returns the default for them). -/
structure ContextBundle where
  context : String := ""
  error : Option String := none
  chunks : List RetrievedChunk := []
  file_ids : List String := []
  context_type : Option String := none
  search_query : Option String := none
  building : Option BuildingRow := none
  measures : List MeasureRow := []
  energy_data : List EspmRow := []
  bills : List BillRow := []
  organization : Option OrgRow := none
  buildings : List OrgBuildingRow := []
  metrics : Option MetricsRow := none
deriving DecidableEq, Repr

/-- `ContextResolver._search_vector_store` (lines 319-370): build the
file-restricted filter, query with `top_k = 5`, project the returned points;
any raised exception gives `[]`. -/
def searchVectorStore (env : ResolverEnv) (org_id building_id : Int)
    (file_ids : List String) (top_k : Nat := 5) : List RetrievedChunk :=
  if env.qdrantRaises then []
  else
    (query_points env.index (buildFileSearchFilter org_id building_id file_ids)
      top_k).map pointToChunk

/-- `ContextResolver._search_vector_store_all_docs` (lines 372-416): tenant
filter only, `top_k = 8`; any raised exception gives `[]`. -/
def searchVectorStoreAllDocs (env : ResolverEnv) (org_id building_id : Int)
    (top_k : Nat := 8) : List RetrievedChunk :=
  if env.qdrantRaises then []
  else
    (query_points env.index (buildAllDocsFilter org_id building_id)
      top_k).map pointToChunk

/-- Formatting of file-context chunks (lines 58-66).  The retrieved payload
carries no `file_name` and no `page` key (the query requests only `text`,
`chunk_index`, `file_id`), so `chunk.get('file_name', 'Unknown')` is always
`"Unknown"` and the `if chunk.get('page'):` line is always skipped. -/
def formatFileChunks (chunks : List RetrievedChunk) : String :=
  String.intercalate "\n"
    (List.flatten (chunks.map (fun c => ["File: Unknown", "Content: " ++ c.text, "---"])))

/-- Formatting of vector-context chunks (lines 256-265), labelled `Source`
instead of `File`; as above `file_name`/`page` are never present. -/
def formatVectorChunks (chunks : List RetrievedChunk) : String :=
  String.intercalate "\n"
    (List.flatten (chunks.map (fun c =>
      ["Source: Unknown Document", "Content: " ++ c.text, "---"])))

/-- `ContextResolver._resolve_file_context` (lines 40-77). -/
def resolve_file_context (env : ResolverEnv) (message : String)
    (file_ids : List String) (org_id building_id : Int) : ContextBundle :=
  let _ := message
  if file_ids.isEmpty then
    { context := "", error := some "No file IDs provided" }
  else
    match env.embedOutcome with
    | .error e => { context := "", error := some e }
    | .ok _query_embedding =>
      let relevant_chunks := searchVectorStore env org_id building_id file_ids
      if relevant_chunks.isEmpty then
        { context := "", error := some "No relevant content found" }
      else
        { context := formatFileChunks relevant_chunks,
          chunks := relevant_chunks,
          file_ids := file_ids,
          context_type := some "file_context" }

/-- `ContextResolver._resolve_building_context` (lines 79-161). -/
def resolve_building_context (env : ResolverEnv) (building_id org_id : Int) :
    ContextBundle :=
  let _ := building_id
  let _ := org_id
  match env.dbRaises with
  | some e => { context := "", error := some e }
  | none =>
    match env.buildingRow with
    | none => { context := "", error := some "Building not found" }
    | some building =>
      let measures := env.measures.take 10
      let energy_data := env.espmData.take 12
      let bills := env.bills.take 12
      let context_parts :=
        ["Building: " ++ building.building_name,
         "Address: " ++ building.address.getD "Unknown",
         "Type: " ++ building.building_type.getD "Unknown",
         "Size: " ++ building.gross_floor_area.getD "Unknown" ++ " sq ft",
         "Year Built: " ++ building.year_built.getD "Unknown"]
        ++ (if measures.isEmpty then []
            else ("\nRecent Measures (" ++ toString measures.length ++ "):") ::
              (measures.take 5).map (fun m => "- " ++ m.measure_name ++ ": " ++ m.status))
        ++ (if energy_data.isEmpty then []
            else ("\nRecent Energy Data (" ++ toString energy_data.length ++ " entries):") ::
              (energy_data.take 3).map (fun d =>
                "- " ++ d.start_date ++ ": " ++ d.usage_quantity.getD "N/A"
                  ++ " " ++ d.usage_units.getD "units"))
        ++ (if bills.isEmpty then []
            else ("\nRecent Bills (" ++ toString bills.length ++ " entries):") ::
              (bills.take 3).map (fun b =>
                "- " ++ b.bill_date ++ ": " ++ b.bill_type ++ " - $" ++ b.amount.getD "N/A"))
      { context := String.intercalate "\n" context_parts,
        building := some building,
        measures := measures,
        energy_data := energy_data,
        bills := bills,
        context_type := some "building_context" }

/-- `ContextResolver._resolve_organization_context` (lines 163-233). -/
def resolve_organization_context (env : ResolverEnv) (org_id : Int)
    (user_email : String) : ContextBundle :=
  let _ := org_id
  let _ := user_email
  match env.dbRaises with
  | some e => { context := "", error := some e }
  | none =>
    match env.orgRow with
    | none => { context := "", error := some "Organization not found" }
    | some org =>
      let buildings := env.orgBuildings
      let metrics := env.orgMetrics
      let context_parts :=
        ["Organization: " ++ org.org_name,
         "Admin: " ++ org.admin_email,
         "Address: " ++ org.address.getD "Unknown"]
        ++ (if buildings.isEmpty then []
            else ("\nBuildings (" ++ toString buildings.length ++ "):") ::
              (buildings.take 10).map (fun b =>
                "- " ++ b.building_name ++ ": " ++ b.building_type.getD "Unknown"))
        ++ (["\nPortfolio Summary:",
             "- Total Buildings: " ++ toString metrics.total_buildings]
            ++ (match metrics.total_area with
                | some area => ["- Total Area: " ++ area ++ " sq ft"]
                | none => [])
            ++ (match metrics.avg_year_built with
                | some avg => ["- Average Year Built: " ++ avg]
                | none => []))
      { context := String.intercalate "\n" context_parts,
        organization := some org,
        buildings := buildings,
        metrics := some metrics,
        context_type := some "organization_context" }

/-- `ContextResolver._resolve_general_context` (lines 235-240). -/
def resolve_general_context : ContextBundle :=
  { context := "You are a helpful building management assistant. You can help with questions about building operations, energy efficiency, maintenance, and general building management topics.",
    context_type := some "general" }

/-- `ContextResolver._resolve_vector_context` (lines 242-276). -/
def resolve_vector_context (env : ResolverEnv) (message : String)
    (org_id building_id : Int) : ContextBundle :=
  match env.embedOutcome with
  | .error e => { context := "", error := some e }
  | .ok _query_embedding =>
    let relevant_chunks := searchVectorStoreAllDocs env org_id building_id
    if relevant_chunks.isEmpty then
      { context := "", error := some "No relevant content found in vector store" }
    else
      { context := formatVectorChunks relevant_chunks,
        chunks := relevant_chunks,
        context_type := some "vector_context",
        search_query := some message }

/-- `ContextResolver.resolve_context` (lines 18-38): dispatch on the context
type, unknown types fall back to the general context.  Each branch is total
(its internal exceptions are already converted to error bundles), so the
outer `except` of `resolve_context` is unreachable. -/
def resolve_context (env : ResolverEnv) (context_type message : String)
    (file_ids : List String) (building_id org_id : Int) (user_email : String) :
    ContextBundle :=
  if context_type = "file_context" then
    resolve_file_context env message file_ids org_id building_id
  else if context_type = "building_context" then
    resolve_building_context env building_id org_id
  else if context_type = "organization_context" then
    resolve_organization_context env org_id user_email
  else if context_type = "vector_context" then
    resolve_vector_context env message org_id building_id
  else if context_type = "general" then
    resolve_general_context
  else
    resolve_general_context

/-! ## Prompt Assembler — `PromptBuilder`
(`src/functions/building_chat/prompt_builder.py`).

The system-message templates are long fixed literals; the embedding keeps
their structure (persona preamble, building name, the bundle's formatted
context spliced in) with the surrounding boilerplate abbreviated, since no
claim inspects the prose.  Everything a claim does inspect — the dispatch,
the per-type default confidences, the fallback record and the transcript
truncation — is embedded exactly. -/

/-- One entry of `message_history`: a Python dict whose `role`/`content`
keys may be absent (`msg.get('role', 'unknown')`, `msg.get('content', '')`). -/
structure ChatMsg where
  role : Option String := none
  content : Option String := none
deriving DecidableEq, Repr

/-- The prompt dictionary returned by `PromptBuilder.build_prompt`; the
per-type count fields (`chunks_used`, `measures_count`, …) are echoes of the
bundle and are not modelled. -/
structure PromptData where
  system_message : String
  context_type : String
  confidence : ℚ
  error : Option String := none
deriving DecidableEq, Repr

/-- Stand-in for the fixed `base_persona` literal (lines 8-18). -/
def base_persona : String :=
  "You are an intelligent building management assistant with a warm, welcoming, and helpful personality. You speak as if you are the building itself."

/-- One of `_build_file_context_prompt` / `_build_building_context_prompt` /
`_build_organization_context_prompt` / `_build_vector_context_prompt`
(lines 42-167): persona, building name, the bundle's context with the
per-type absence default, and the per-type default confidence
(`context_data.get('confidence', …)`; resolver bundles never carry a
`confidence` key, so the default always applies). -/
def buildTypedPrompt (building_name : String) (context_type : String)
    (contextText : String) (confidence : ℚ) : PromptData :=
  { system_message := base_persona ++ "\n\nI am " ++ building_name
      ++ ", and here is the relevant information:\n\n" ++ contextText,
    context_type := context_type,
    confidence := confidence }

/-- `_build_general_prompt` (lines 169-202). -/
def build_general_prompt (building_name : String) : PromptData :=
  { system_message := base_persona ++ "\n\nI am " ++ building_name
      ++ ", a helpful building management assistant.",
    context_type := "general",
    confidence := 0.7 }

/-- `_build_fallback_prompt` (lines 204-218). -/
def build_fallback_prompt (building_name : String) : PromptData :=
  { system_message := base_persona ++ "\n\nI am " ++ building_name
      ++ ", and I'm experiencing some technical difficulties accessing my detailed data right now.",
    context_type := "fallback",
    confidence := 0.5,
    error := some "Fallback prompt used due to technical issues" }

/-- `PromptBuilder.build_prompt` (lines 20-40): dispatch on the context
type; unknown types use the general template.  Every branch is total, so the
`except` route to `_build_fallback_prompt` is unreachable. -/
def build_prompt (building_name context_type : String)
    (context_data : ContextBundle) : PromptData :=
  if context_type = "file_context" then
    buildTypedPrompt building_name "file_context"
      (if context_data.context = "" then "No file content available" else context_data.context) 0.8
  else if context_type = "building_context" then
    buildTypedPrompt building_name "building_context"
      (if context_data.context = "" then "Building data not available" else context_data.context) 0.9
  else if context_type = "organization_context" then
    buildTypedPrompt building_name "organization_context"
      (if context_data.context = "" then "Organization data not available" else context_data.context) 0.85
  else if context_type = "vector_context" then
    buildTypedPrompt building_name "vector_context"
      (if context_data.context = "" then "No relevant information found" else context_data.context) 0.8
  else
    build_general_prompt building_name

/-- `PromptBuilder.add_conversation_context` (lines 220-234): append the last
5 turns, each content truncated to 200 characters, as a labelled section. -/
def add_conversation_context (system_message : String)
    (message_history : List ChatMsg) : String :=
  if message_history.isEmpty then system_message
  else
    let recent_messages := message_history.drop (message_history.length - 5)
    let context_lines := "\nRecent conversation context:" ::
      recent_messages.map (fun m =>
        "- " ++ m.role.getD "unknown" ++ ": " ++ (m.content.getD "").take 200)
    system_message ++ "\n" ++ String.intercalate "\n" context_lines

/-! ## Generation Client and Orchestrator — `LLMOrchestrator`
(`src/functions/building_chat/llm_orchestrator.py`). -/

/-- Body of a completion-API HTTP response as `_generate_llm_response` reads
it: the `ok` flag, the message contents of `choices`, the usage dictionary
and the reported model. -/
structure GenApiResult where
  ok : Bool := true
  choices : List String := []
  usage : Usage := {}
  model : Option String := none
deriving DecidableEq, Repr

/-- Behaviour of the completion call: the transport raised, or a response
arrived. -/
inductive GenRemote where
  | raised (msg : String)
  | response (r : GenApiResult)
deriving DecidableEq, Repr

/-- Successful result of `_generate_llm_response` (lines 225-229). -/
structure LLMResponse where
  response : String
  usage : Usage
  model : String
deriving DecidableEq, Repr

/-- `LLMOrchestrator._generate_llm_response` (lines 170-233): transport
failure, a non-ok HTTP status, and an empty `choices` list all raise (and the
`except` re-raises); otherwise the first choice's content is returned.  The
message-list assembly (system message + last 10 turns + the user message)
feeds the remote call and cannot fail. -/
def generate_llm_response (remote : GenRemote) : Except String LLMResponse :=
  match remote with
  | .raised msg => .error msg
  | .response r =>
    if !r.ok then .error "OpenAI API error"
    else
      match r.choices with
      | [] => .error "No response from OpenAI"
      | assistant_message :: _ =>
        .ok { response := assistant_message,
              usage := r.usage,
              model := r.model.getD "gpt-4o-mini" }

/-- Outcome of `invoke_file_processor_lambda` as `_process_file_if_needed`
sees it: the invocation raised, or returned a result dictionary with a
`status` and possibly a `file_id`. -/
inductive FileProcOutcome where
  | raised
  | result (status : String) (file_id : Option String)
deriving DecidableEq, Repr

/-- `LLMOrchestrator._process_file_if_needed` (lines 75-129): only runs when
the classification asks for file processing and a file URL is present; an
`s3://` URL with a key part triggers the processor, whose success prepends
the new file id; every failure path returns the existing list unchanged
(`existing_file_ids or []`). -/
def process_file_if_needed (outcome : FileProcOutcome)
    (classification : ClassDict) (file_url : Option String)
    (existing_file_ids : List String) : List String :=
  if !(classification.requires_file_processing.getD false) then existing_file_ids
  else
    match file_url with
    | none => existing_file_ids
    | some url =>
      if url.startsWith "s3://" then
        -- `file_url[5:].split('/', 1)` has two parts iff the remainder
        -- contains a '/'
        if !(url.drop 5).contains '/' then existing_file_ids
        else
          match outcome with
          | .raised => existing_file_ids
          | .result status file_id =>
            if status = "success" then
              match file_id with
              | some fid => fid :: existing_file_ids
              | none => existing_file_ids
            else existing_file_ids
      else existing_file_ids

/-- External-world oracle for one `generate_response` call. -/
structure OrchEnv where
  classifyRemote : ClassifierRemote := .raised
  fileProc : FileProcOutcome := .raised
  resolver : ResolverEnv := {}
  genRemote : GenRemote := .raised "timeout"

/-- Metadata block of the chat response (`_format_response` lines 244-259).
The cost-summary echo of the usage ledger is independent state (claim C10)
and not repeated here. -/
structure ChatMetadata where
  context_type : String
  confidence : ℚ := 0
  reason : String := ""
  context_used : Bool := false
  model_used : String := ""
  tokens_used : Nat := 0
  error : Option String := none
deriving DecidableEq, Repr

/-- The response dictionary returned by `generate_response`. -/
structure ChatResponse where
  response : String
  metadata : ChatMetadata
  status : String
deriving DecidableEq, Repr

/-- `LLMOrchestrator._generate_error_response` (lines 276-286). -/
def generate_error_response (error_message : String) : ChatResponse :=
  { response := "I apologize, but I'm experiencing technical difficulties right now. Please try again in a moment.",
    metadata := { context_type := "error", confidence := 0, error := some error_message },
    status := "error" }

/-- `LLMOrchestrator._format_response` (lines 235-274): its `try` body
subscripts `classification['context_type']`, which raises `KeyError` when the
parsed classification JSON lacks that key; the local `except` then returns
the error-status apology.  All other accesses use `.get` defaults and are
total. -/
def format_response (llm_response : LLMResponse) (classification : ClassDict)
    (context_data : ContextBundle) (prompt_data : PromptData) : ChatResponse :=
  let _ := prompt_data
  match classification.context_type with
  | none =>
    { response := "I apologize, but I encountered an issue processing your request. Please try again.",
      metadata := { context_type := "fallback", confidence := 0,
                    error := some "KeyError: context_type" },
      status := "error" }
  | some context_type =>
    { response := llm_response.response,
      metadata :=
        { context_type := context_type,
          confidence := classification.confidence.getD 0,
          reason := classification.reason.getD "",
          context_used := context_data.context ≠ "",
          model_used := llm_response.model,
          tokens_used := llm_response.usage.total_tokens.getD 0,
          error := context_data.error },
      status := "success" }

/-- Body of `LLMOrchestrator.generate_response` (lines 24-54) as an
exception-carrying computation.  The per-stage wrappers `_classify_context`,
`_process_file_if_needed`, `_resolve_context` and `_build_prompt` each catch
their own exceptions and substitute a degraded default, and their wrapped
callees are total here, so they never throw; the two throw sites are the
`classification['context_type']` subscript on line 29 (a `KeyError` when the
parsed JSON lacks the key) and `_generate_llm_response`, which re-raises. -/
def generateResponseTry (env : OrchEnv) (message : String)
    (message_history : List ChatMsg) (building_id organization_id : Int)
    (building_name user_email : String) (file_ids : List String)
    (file_url : Option String) : Except String ChatResponse := do
  let _ := user_email
  let classification := classify env.classifyRemote message
  -- line 29: `logger.info(f"… {classification['context_type']}")`
  let context_type ←
    match classification.context_type with
    | none => Except.error "KeyError: context_type"
    | some t => Except.ok t
  let processed_file_ids :=
    process_file_if_needed env.fileProc classification file_url file_ids
  let context_data :=
    resolve_context env.resolver context_type message processed_file_ids
      building_id organization_id user_email
  let prompt_data := build_prompt building_name context_type context_data
  let prompt_data :=
    if message_history.isEmpty then prompt_data
    else { prompt_data with
      system_message := add_conversation_context prompt_data.system_message message_history }
  let llm_response ← generate_llm_response env.genRemote
  pure (format_response llm_response classification context_data prompt_data)

/-- `LLMOrchestrator.generate_response` (lines 19-58): the outer
`try/except` turns any escaping exception into the generic-apology error
response. -/
def generate_response (env : OrchEnv) (message : String)
    (message_history : List ChatMsg) (building_id organization_id : Int)
    (building_name user_email : String) (file_ids : List String)
    (file_url : Option String) : ChatResponse :=
  match generateResponseTry env message message_history building_id
      organization_id building_name user_email file_ids file_url with
  | .ok resp => resp
  | .error e => generate_error_response e

/-! ## Ingestion Pipeline — `ProcessAndEmbed` and `RAGPipeline`
(`src/functions/process_and_embeds/lambda_function.py` and
`src/functions/embed_and_index/lambda_function.py`).

PDF extraction (fitz) and the S3 fetch are external, so the extracted page
list arrives as an oracle; as for the chunker, page text is carried as its
whitespace-tokenized word list.  The OpenAI embedding endpoint is an oracle
mapping one batch of texts to vectors or to a raised
`requests.exceptions.RequestException`. -/

/-- One entry of `self.text_chunks` (lines 263-267): page number and the
cleaned page text, tokenized. -/
structure PageText where
  page : Nat
  words : List String
deriving DecidableEq, Repr

/-- One entry of `self.chunked_docs` (`create_chunks`, lines 317-326). -/
structure ChunkDoc where
  page : Nat
  text : List String
  chunk_index : Nat
  total_chunks : Nat
  word_count : Nat
  chunk_size : Int
  overlap : Int
deriving DecidableEq, Repr

/-- `ProcessAndEmbed.create_chunks` (lines 310-331): chunk every page and
flatten, annotating each chunk with its per-page index and total.  The
`chunk_text` fuel `words.length + 1` is sufficient whenever
`overlap < window_size` (the only configurations this pipeline is invoked
with feed the defaults 512/50); the `.getD []` default is unreachable then. -/
def create_chunks (pages : List PageText) (window_size overlap : Int) :
    List ChunkDoc :=
  List.flatten (pages.map (fun entry =>
    let chunks := (chunk_text entry.words window_size overlap
      (entry.words.length + 1)).getD []
    chunks.enum.map (fun ic =>
      { page := entry.page,
        text := ic.2,
        chunk_index := ic.1,
        total_chunks := chunks.length,
        word_count := ic.2.length,
        chunk_size := window_size,
        overlap := overlap })))

/-- Oracle for one `get_openai_embeddings_batch` call: the vectors for the
batch, or the message of the raised exception. -/
def EmbedSvc : Type := List (List String) → Except String (List (List ℚ))

/-- Batch loop of `ProcessAndEmbed.generate_embeddings` (lines 337-343):
consume the texts 32 at a time, stopping at the first raised call.  The
`fuel` parameter bounds the number of batches for structural recursion;
every call passes the text count, which always suffices since each batch
consumes at least one text. -/
def embedBatches (svc : EmbedSvc) : Nat → List (List String) →
    Except String (List (List ℚ))
  | _, [] => .ok []
  | 0, _ :: _ => .ok []
  | fuel + 1, t :: ts =>
    match svc ((t :: ts).take 32) with
    | .error e => .error e
    | .ok batch_embeddings =>
      match embedBatches svc fuel (ts.drop 31) with
      | .error e => .error e
      | .ok rest => .ok (batch_embeddings ++ rest)

/-- `ProcessAndEmbed.generate_embeddings` (lines 333-346): run the batch
loop, then `np.vstack` — which raises when no batch was produced (an empty
text list). -/
def generate_embeddings (texts : List (List String)) (svc : EmbedSvc) :
    Except String (List (List ℚ)) :=
  if texts.isEmpty then .error "need at least one array to concatenate"
  else embedBatches svc texts.length texts

/-- Result dictionary of `process_file_bytes` (lines 367-387). -/
structure ProcessResult where
  status : String
  error : Option String := none
  chunks : List ChunkDoc := []
  embeddings : List (List ℚ) := []
  num_chunks : Nat := 0
  embedding_dim : Option Nat := none
deriving DecidableEq, Repr

/-- `ProcessAndEmbed.process_file_bytes` (lines 348-387): extract → require
text → chunk → embed; any raised step is caught and returned as the
`status = error` dictionary, so no later step runs. -/
def process_file_bytes (extraction : Except String (List PageText))
    (svc : EmbedSvc) (window_size overlap : Int) : ProcessResult :=
  match extraction with
  | .error e => { status := "error", error := some e }
  | .ok text_chunks =>
    if text_chunks.isEmpty then
      { status := "error", error := some "No text was extracted from the file!" }
    else
      let chunked_docs := create_chunks text_chunks window_size overlap
      match generate_embeddings (chunked_docs.map (·.text)) svc with
      | .error e => { status := "error", error := some e }
      | .ok embeddings =>
        { status := "success",
          chunks := chunked_docs,
          embeddings := embeddings,
          num_chunks := chunked_docs.length,
          embedding_dim := embeddings.head?.map List.length }

/-- Shadow row inserted by `create_file_chunk_vector`
(`embed_and_index/lambda_function.py` lines 76-134). -/
structure ShadowRow where
  file_id : String
  qdrant_id : String
  embedding : List ℚ
  chunk_index : Nat
  page_number : Nat
  word_count : Nat
  text : String
deriving DecidableEq, Repr

/-- External stores touched by the indexing lambda: the Qdrant collection,
the relational shadow table and the S3 bucket contents. -/
structure VectorStores where
  qdrantPoints : List QPoint := []
  shadowRows : List ShadowRow := []
  s3Objects : List String := []
deriving DecidableEq, Repr

/-- Result dictionary of `RAGPipeline.process_and_store` /
`lambda_handler`. -/
structure IngestResult where
  statusCode : Nat
  status : String
  error : Option String := none
deriving DecidableEq, Repr

/-- `RAGPipeline.process_and_store` (lines 252-308): skip unless the process
result succeeded; otherwise build one `PointStruct` per (chunk, embedding)
pair (ids from the external `uuid4` stream), upsert them, insert the shadow
rows and write the chunks JSON to S3. -/
def process_and_store (bucket path : String) (org_id building_id : Int)
    (file_id : String) (process_result : ProcessResult) (uuid : Nat → String)
    (stores : VectorStores) : IngestResult × VectorStores :=
  if process_result.status ≠ "success" then
    ({ statusCode := 500, status := process_result.status,
       error := process_result.error }, stores)
  else
    let vectors_to_upsert :=
      ((process_result.chunks.zip process_result.embeddings).enum).map (fun ice =>
        let i := ice.1
        let chunk := ice.2.1
        let embedding := ice.2.2
        { id := uuid i,
          vector := embedding,
          payload :=
            { org_id := org_id,
              building_id := building_id,
              file_id := file_id,
              text := String.intercalate " " chunk.text,
              page := chunk.page,
              custom_id := "vs_" ++ toString org_id ++ "_" ++ toString building_id
                ++ "_" ++ file_id ++ "_" ++ toString i,
              word_count := chunk.word_count,
              source := "s3://" ++ bucket ++ "/" ++ path,
              chunk_index := i } : QPoint })
    let stores :=
      { stores with qdrantPoints := stores.qdrantPoints ++ vectors_to_upsert }
    let stores :=
      { stores with shadowRows := stores.shadowRows ++
          vectors_to_upsert.map (fun (pt : QPoint) =>
            ({ file_id := file_id,
               qdrant_id := pt.id,
               embedding := pt.vector,
               chunk_index := pt.payload.chunk_index,
               page_number := pt.payload.page,
               word_count := pt.payload.word_count,
               text := pt.payload.text } : ShadowRow)) }
    let stores :=
      { stores with s3Objects := stores.s3Objects ++ ["chunks.json"] }
    ({ statusCode := 200, status := "success" }, stores)

/-- Event payload of the indexing lambda; `none` models a missing or falsy
parameter (the handler requires all six truthy via `all([...])`). -/
structure EIEvent where
  file_url : Option String := none
  bucket : Option String := none
  org_id : Option Int := none
  building_id : Option Int := none
  file_id : Option String := none
  path : Option String := none

/-- `embed_and_index.lambda_handler` (lines 163-213): validate the payload,
run the process-and-embed lambda (whose own handler passes the default
chunking configuration `window_size=512, overlap=50` since the invocation
payload carries only `file_url`), bail out with 500 when it did not succeed,
otherwise index the vectors. -/
def embed_and_index_handler (event : EIEvent)
    (extraction : Except String (List PageText)) (svc : EmbedSvc)
    (uuid : Nat → String) (stores : VectorStores) :
    IngestResult × VectorStores :=
  match event.file_url, event.bucket, event.org_id, event.building_id,
      event.file_id, event.path with
  | some _file_url, some bucket, some org_id, some building_id,
      some file_id, some path =>
    let process_result := process_file_bytes extraction svc 512 50
    if process_result.status ≠ "success" then
      ({ statusCode := 500, status := process_result.status,
         error := process_result.error }, stores)
    else
      process_and_store bucket path org_id building_id file_id process_result
        uuid stores
  | _, _, _, _, _, _ =>
    ({ statusCode := 400, status := "error",
       error := some "Missing required parameters in event payload" }, stores)

/-! ## Theorems -/

/-- Helper for C2: with `window_size = overlap = 2` and three words the loop
condition `start < len(words)` holds at `start = 0` and the increment
`window_size - overlap` is zero, so the loop state repeats forever. -/
theorem chunkGo_stuck_at_zero (fuel : Nat) :
    chunkGo ["a", "b", "c"] 2 2 fuel 0 = none := by
  induction fuel with
  | zero => decide
  | succ n ih =>
    show chunkGo ["a", "b", "c"] 2 2 (n + 1) 0 = none
    have h2 : (0 : Int) + (2 - 2) = 0 := by norm_num
    simp only [chunkGo, h2, ih]
    decide

/-- Claim C2 (code_bug evidence): with `overlap = window_size = 2` on a
three-word input the sliding-window loop of `chunk_text` never terminates —
for every iteration budget the loop is still running — contradicting the
claim (and the source's own comment "Prevent infinite loop if
overlap >= window_size"): the window start does not advance and the guard
`if start >= len(words): break` never fires. -/
theorem chunk_text_nonterminating_when_overlap_eq_window :
    ∀ fuel : Nat, chunk_text ["a", "b", "c"] 2 2 fuel = none := by
  intro fuel
  have h : ¬ ((["a", "b", "c"].length : Int) ≤ 2) := by decide
  simp only [chunk_text, h, if_false]
  exact chunkGo_stuck_at_zero fuel

/-- Claim C3 (code_bug evidence): at the failing input — model
`gpt-4o-mini`, 1000 prompt tokens, 200 completion tokens — the code records
a cost of 72/100000000 USD ($0.00000072), not the 0.00072 USD required by
the documented rates ($0.40 per million input tokens, $1.60 per million
output tokens): the `PRICING` constants are per-1000-token rates while the
formula divides the token counts by 1,000,000, so every recorded cost is
1000 times smaller than documented. -/
theorem calculate_cost_at_failing_input :
    calculate_cost "gpt-4o-mini"
        { prompt_tokens := some 1000, completion_tokens := some 200 } =
      72 / 100000000 ∧
    ¬ (calculate_cost "gpt-4o-mini"
        { prompt_tokens := some 1000, completion_tokens := some 200 } =
      (0.00072 : ℚ)) := by
  constructor
  · norm_num [calculate_cost, PRICING]
  · norm_num [calculate_cost, PRICING]

/-- Helper for C10: the computed cost is never negative — the token counts
are naturals and every rate in `PRICING` is a non-negative constant. -/
theorem calculate_cost_nonneg (model : String) (usage : Usage) :
    0 ≤ calculate_cost model usage := by
  obtain ⟨pt, ct, tt⟩ := usage
  by_cases h1 : model = "gpt-4o-mini"
  · cases pt <;> cases ct <;>
      simp [calculate_cost, PRICING, h1] <;> positivity
  · by_cases h2 : model = "text-embedding-3-small"
    · cases pt <;> cases ct <;>
        simp [calculate_cost, PRICING, h1, h2] <;> positivity
    · simp [calculate_cost, PRICING, h1, h2]

/-- Helper for C10: the ledger invariant — the running total equals the sum
of the recorded costs, and every recorded cost is non-negative — is
preserved by any sequence of operations from any state satisfying it. -/
theorem tracker_invariant_preserved (ops : List TrackerOp) (st : TrackerState)
    (h1 : st.total_cost = (st.api_calls.map (fun r => r.cost_usd)).sum)
    (h2 : ∀ r ∈ st.api_calls, 0 ≤ r.cost_usd) :
    (ops.foldl trackerStep st).total_cost =
      (((ops.foldl trackerStep st).api_calls).map (fun r => r.cost_usd)).sum ∧
    ∀ r ∈ (ops.foldl trackerStep st).api_calls, 0 ≤ r.cost_usd := by
  induction ops generalizing st with
  | nil => exact ⟨h1, h2⟩
  | cons op ops ih =>
    simp only [List.foldl_cons]
    apply ih
    · cases op with
      | log api_type model usage =>
        simp [trackerStep, log_api_call, h1]
      | reset => simp [trackerStep, reset_session, initialTracker]
    · cases op with
      | log api_type model usage =>
        intro r hr
        simp only [trackerStep, log_api_call, List.mem_append,
          List.mem_singleton] at hr
        rcases hr with hr | hr
        · exact h2 r hr
        · subst hr; exact calculate_cost_nonneg model usage
      | reset =>
        intro r hr
        simp [trackerStep, reset_session, initialTracker] at hr

/-- Claim C10: after any sequence of `log_api_call` / `reset_session`
operations from the initial state, `total_cost` equals the sum of `cost_usd`
over all records in `api_calls`, every recorded cost is non-negative, and
appending a `reset_session` restores the empty state.  (`log_api_call` is
total in the embedding — every operation of its `try` body is total, so its
`except` branch returning `0.0` is dead code and the call never raises.) -/
theorem cost_tracker_ledger_invariant (ops : List TrackerOp) :
    (runTracker ops).total_cost =
      (((runTracker ops).api_calls).map (fun r => r.cost_usd)).sum ∧
    (∀ r ∈ (runTracker ops).api_calls, 0 ≤ r.cost_usd) ∧
    runTracker (ops ++ [TrackerOp.reset]) = initialTracker := by
  have h := tracker_invariant_preserved ops initialTracker (by simp [initialTracker])
    (by simp [initialTracker])
  refine ⟨h.1, h.2, ?_⟩
  simp [runTracker, List.foldl_append, trackerStep, reset_session]

/-- Helper for C6/C7: the fallback classification is well-formed for every
message — its label is one of the five context types and its confidence
(0.7 or 0.6) lies in `[0, 1]`. -/
theorem fallback_classification_wellformed (message : String) :
    IsWellFormedClassification (fallback_classification message) := by
  simp only [fallback_classification]
  split
  · exact ⟨⟨"file_context", rfl, by simp⟩, ⟨0.7, rfl, by norm_num⟩⟩
  · split
    · exact ⟨⟨"building_context", rfl, by simp⟩, ⟨0.7, rfl, by norm_num⟩⟩
    · split
      · exact ⟨⟨"organization_context", rfl, by simp⟩, ⟨0.7, rfl, by norm_num⟩⟩
      · split
        · exact ⟨⟨"vector_context", rfl, by simp⟩, ⟨0.7, rfl, by norm_num⟩⟩
        · exact ⟨⟨"general", rfl, by simp⟩, ⟨0.6, rfl, by norm_num⟩⟩

/-- Claim C7: the keyword fallback classifier is a pure function of the
message alone (it is a Lean function of `message`, so re-running it on an
identical message definitionally returns identical output); it equals the
classifier transcribed from the claim's own wording — lower-case the
message, test the file-, building-, organization- and historical/vector-
related keyword sets in that priority order, return confidence 0.7 for the
four keyword-matched categories and 0.6 for the general default — and its
reason always states "Fallback". -/
theorem fallback_classification_is_keyword_spec (message : String) :
    fallback_classification message = keywordFallbackSpec message ∧
    "Fallback".toList.isPrefixOf ((fallback_classification message).reason.getD "").toList = true ∧
    IsWellFormedClassification (fallback_classification message) := by
  refine ⟨rfl, ?_, fallback_classification_wellformed message⟩
  simp only [fallback_classification]
  split
  · decide
  · split
    · decide
    · split
      · decide
      · split
        · decide
        · decide

/-- Claim C6 (counterexample): a remote classification reply that is valid
JSON with arbitrary fields — here `context_type = "banana"` and
`confidence = 2` — is returned by `classify` as-is, so the result is not a
well-formed ClassificationResult (its label is not one of the five and its
confidence is outside `[0, 1]`), refuting the claim for this remote
response. -/
theorem classify_returns_malformed_json_verbatim :
    classify (.ok (some { context_type := some "banana", confidence := some 2 }))
        "What is my energy usage?" =
      { context_type := some "banana", confidence := some 2 } ∧
    ¬ IsWellFormedClassification
      (classify (.ok (some { context_type := some "banana", confidence := some 2 }))
        "What is my energy usage?") := by
  refine ⟨rfl, ?_⟩
  rintro ⟨⟨t, ht, hmem⟩, -⟩
  rw [show (classify (.ok (some { context_type := some "banana", confidence := some 2 }))
      "What is my energy usage?").context_type = some "banana" from rfl] at ht
  cases ht
  simp at hmem

/-- Claim C6 (amended): `classify` never raises (it is total over every
remote behaviour), and its result is either well-formed — which is the case
on every transport-failure, HTTP-error and JSON-parse-failure path, via the
keyword fallback — or is exactly the JSON object parsed from the model's
reply, returned without validation. -/
theorem classify_wellformed_unless_parsed (remote : ClassifierRemote)
    (message : String) :
    IsWellFormedClassification (classify remote message) ∨
    ∃ parsed, remote = ClassifierRemote.ok (some parsed) ∧
      classify remote message = parsed := by
  cases remote with
  | raised => exact Or.inl (fallback_classification_wellformed message)
  | httpError => exact Or.inl (fallback_classification_wellformed message)
  | ok p =>
    cases p with
    | none => exact Or.inl (fallback_classification_wellformed message)
    | some parsed => exact Or.inr ⟨parsed, rfl, rfl⟩

/-- Helper for C1: a point returned by `query_points` satisfies the query
filter. -/
theorem mem_query_points_satisfies {index : List QPoint} {f : QFilter}
    {limit : Nat} {pt : QPoint} (h : pt ∈ query_points index f limit) :
    satisfiesFilter pt.payload f = true := by
  unfold query_points at h
  exact (List.mem_filter.mp (List.mem_of_mem_take h)).2

/-- Helper for C1: a satisfied filter forces every exact-match condition in
its `must` list. -/
theorem satisfies_fieldCond_of_mem {p : QPayload} {f : QFilter} {key : String}
    {v : QValue} (hs : satisfiesFilter p f = true)
    (hm : QMustItem.fieldCond key v ∈ f.must) : p.get key = some v := by
  have h := List.all_eq_true.mp hs _ hm
  simpa [satisfiesMustItem] using h

/-- Helper for C1: a satisfied filter forces at least one disjunct of every
nested should-clause in its `must` list. -/
theorem satisfies_shouldFilter_of_mem {p : QPayload} {f : QFilter}
    {l : List (String × QValue)} (hs : satisfiesFilter p f = true)
    (hm : QMustItem.shouldFilter l ∈ f.must) :
    ∃ kv ∈ l, p.get kv.1 = some kv.2 := by
  have h := List.all_eq_true.mp hs _ hm
  simpa [satisfiesMustItem, List.any_eq_true] using h

/-- Claim C1: both resolver queries filter with a `must` clause containing
the exact-match tenant conditions `org_id == org` and `building_id ==
building`; the file-restricted query additionally conjoins, when `file_ids`
is non-empty, a should-clause that is the OR of `file_id == f` over the
requested ids; consequently every point either query returns carries the
requesting tenant's `org_id` and `building_id` in its payload (and, for the
restricted query, one of the requested file ids). -/
theorem vector_query_tenant_isolation (index : List QPoint)
    (org_id building_id : Int) (file_ids : List String) (pt : QPoint) :
    (QMustItem.fieldCond "org_id" (QValue.int org_id) ∈
        (buildFileSearchFilter org_id building_id file_ids).must ∧
     QMustItem.fieldCond "building_id" (QValue.int building_id) ∈
        (buildFileSearchFilter org_id building_id file_ids).must ∧
     (¬ file_ids = [] →
       QMustItem.shouldFilter
           (file_ids.map (fun fid => ("file_id", QValue.str fid))) ∈
         (buildFileSearchFilter org_id building_id file_ids).must)) ∧
    (pt ∈ query_points index (buildFileSearchFilter org_id building_id file_ids) 5 →
      pt.payload.org_id = org_id ∧ pt.payload.building_id = building_id ∧
      (¬ file_ids = [] → pt.payload.file_id ∈ file_ids)) ∧
    (pt ∈ query_points index (buildAllDocsFilter org_id building_id) 8 →
      pt.payload.org_id = org_id ∧ pt.payload.building_id = building_id) := by
  have hwork : ∀ fl : QFilter, ∀ key v, QMustItem.fieldCond key v ∈ fl.must →
      satisfiesFilter pt.payload fl = true → pt.payload.get key = some v :=
    fun _ _ _ hm hs => satisfies_fieldCond_of_mem hs hm
  refine ⟨?_, ?_, ?_⟩
  · by_cases hfe : file_ids.isEmpty
    · refine ⟨?_, ?_, fun hne => absurd (List.isEmpty_iff.mp hfe) hne⟩ <;>
        simp [buildFileSearchFilter, hfe]
    · refine ⟨?_, ?_, fun _ => ?_⟩ <;> simp [buildFileSearchFilter, hfe]
  · intro hmem
    have hs := mem_query_points_satisfies hmem
    have horg : pt.payload.get "org_id" = some (QValue.int org_id) := by
      apply satisfies_fieldCond_of_mem hs
      by_cases hfe : file_ids.isEmpty <;> simp [buildFileSearchFilter, hfe]
    have hbld : pt.payload.get "building_id" = some (QValue.int building_id) := by
      apply satisfies_fieldCond_of_mem hs
      by_cases hfe : file_ids.isEmpty <;> simp [buildFileSearchFilter, hfe]
    refine ⟨?_, ?_, ?_⟩
    · have : some (QValue.int pt.payload.org_id) = some (QValue.int org_id) := horg
      injection this with h
      injection h
    · have : some (QValue.int pt.payload.building_id) =
          some (QValue.int building_id) := hbld
      injection this with h
      injection h
    · intro hne
      have hfe : ¬ file_ids.isEmpty := by
        simpa [List.isEmpty_iff] using hne
      have hmf : QMustItem.shouldFilter
          (file_ids.map (fun fid => ("file_id", QValue.str fid))) ∈
          (buildFileSearchFilter org_id building_id file_ids).must := by
        simp [buildFileSearchFilter, hfe]
      obtain ⟨kv, hkv, hget⟩ := satisfies_shouldFilter_of_mem hs hmf
      obtain ⟨fid, hfid, rfl⟩ := List.mem_map.mp hkv
      have : some (QValue.str pt.payload.file_id) = some (QValue.str fid) := hget
      injection this with h
      injection h with h
      rw [h]
      exact hfid
  · intro hmem
    have hs := mem_query_points_satisfies hmem
    have horg : pt.payload.get "org_id" = some (QValue.int org_id) := by
      apply satisfies_fieldCond_of_mem hs
      simp [buildAllDocsFilter]
    have hbld : pt.payload.get "building_id" = some (QValue.int building_id) := by
      apply satisfies_fieldCond_of_mem hs
      simp [buildAllDocsFilter]
    constructor
    · have : some (QValue.int pt.payload.org_id) = some (QValue.int org_id) := horg
      injection this with h
      injection h
    · have : some (QValue.int pt.payload.building_id) =
          some (QValue.int building_id) := hbld
      injection this with h
      injection h

/-- Helper for C8: the file-context resolver returns either an error-free
bundle or an empty context. -/
theorem resolve_file_context_contract (env : ResolverEnv) (message : String)
    (file_ids : List String) (org_id building_id : Int) :
    (resolve_file_context env message file_ids org_id building_id).error = none ∨
    (resolve_file_context env message file_ids org_id building_id).context = "" := by
  unfold resolve_file_context
  split
  · exact Or.inr rfl
  · split
    · exact Or.inr rfl
    · dsimp only
      split
      · exact Or.inr rfl
      · exact Or.inl rfl

/-- Helper for C8: the building-context resolver returns either an error-free
bundle or an empty context. -/
theorem resolve_building_context_contract (env : ResolverEnv)
    (building_id org_id : Int) :
    (resolve_building_context env building_id org_id).error = none ∨
    (resolve_building_context env building_id org_id).context = "" := by
  unfold resolve_building_context
  split
  · exact Or.inr rfl
  · split
    · exact Or.inr rfl
    · exact Or.inl rfl

/-- Helper for C8: the organization-context resolver returns either an
error-free bundle or an empty context. -/
theorem resolve_organization_context_contract (env : ResolverEnv)
    (org_id : Int) (user_email : String) :
    (resolve_organization_context env org_id user_email).error = none ∨
    (resolve_organization_context env org_id user_email).context = "" := by
  unfold resolve_organization_context
  split
  · exact Or.inr rfl
  · split
    · exact Or.inr rfl
    · exact Or.inl rfl

/-- Helper for C8: the vector-context resolver returns either an error-free
bundle or an empty context. -/
theorem resolve_vector_context_contract (env : ResolverEnv) (message : String)
    (org_id building_id : Int) :
    (resolve_vector_context env message org_id building_id).error = none ∨
    (resolve_vector_context env message org_id building_id).context = "" := by
  unfold resolve_vector_context
  split
  · exact Or.inr rfl
  · dsimp only
    split
    · exact Or.inr rfl
    · exact Or.inl rfl

/-- Claim C8: `resolve_context` is total over every oracle behaviour (it
never raises) and every internal failure yields a bundle whose context is
empty and whose `error` field is populated: in every case the bundle is
either error-free or empty-context, file-context resolution with an empty
`file_ids` list returns exactly the `"No file IDs provided"` error bundle,
an embedding-call failure or database failure surfaces that exception's
message as the bundle error, and a missing building or organization row
yields the corresponding not-found error. -/
theorem resolve_context_error_contract (env : ResolverEnv)
    (context_type message : String) (file_ids : List String)
    (building_id org_id : Int) (user_email : String) (e : String)
    (fid : String) :
    ((resolve_context env context_type message file_ids building_id org_id
        user_email).error = none ∨
     (resolve_context env context_type message file_ids building_id org_id
        user_email).context = "") ∧
    resolve_context env "file_context" message [] building_id org_id user_email =
      { context := "", error := some "No file IDs provided" } ∧
    (resolve_context { env with embedOutcome := .error e } "file_context"
        message (fid :: file_ids) building_id org_id user_email).error = some e ∧
    (resolve_context { env with dbRaises := some e } "building_context" message
        file_ids building_id org_id user_email).error = some e ∧
    (resolve_context { env with dbRaises := none, buildingRow := none }
        "building_context" message file_ids building_id org_id
        user_email).error = some "Building not found" ∧
    (resolve_context { env with dbRaises := none, orgRow := none }
        "organization_context" message file_ids building_id org_id
        user_email).error = some "Organization not found" := by
  refine ⟨?_, rfl, rfl, rfl, rfl, rfl⟩
  unfold resolve_context
  split
  · exact resolve_file_context_contract env message file_ids org_id building_id
  · split
    · exact resolve_building_context_contract env building_id org_id
    · split
      · exact resolve_organization_context_contract env org_id user_email
      · split
        · exact resolve_vector_context_contract env message org_id building_id
        · split
          · exact Or.inl rfl
          · exact Or.inl rfl

/-- Environment for the C9 counterexample: the classification model answers
with the parseable JSON object `{}` (no `context_type` key), every other
collaborator is healthy, and the completion call would succeed with the
reply "Hello". -/
def envMissingContextType : OrchEnv :=
  { classifyRemote := .ok (some {}),
    fileProc := .raised,
    resolver := {},
    genRemote := .response { ok := true, choices := ["Hello"] } }

/-- Claim C9 (counterexample): with a classification reply that parses as
JSON but lacks `context_type`, `generate_response` returns `status = error`
even though the generation stage would succeed (the subscript
`classification['context_type']` raises before generation is reached) — so
`status = error` is not equivalent to generation failure. -/
theorem generate_response_error_without_generation_failure :
    (generate_response envMissingContextType "Hello" [] 1 1 "HQ"
      "user@example.com" [] none).status = "error" ∧
    generate_llm_response envMissingContextType.genRemote =
      .ok { response := "Hello", usage := {}, model := "gpt-4o-mini" } :=
  ⟨rfl, rfl⟩

/-- Claim C9 (amended): `generate_response` returns `status = error` exactly
when the generation stage fails (transport failure, non-ok response, or an
empty choice list) or the classification result lacks a `context_type` key
(possible only when the classification model returned parseable JSON without
it); in that case the response text is the generic apology.  Whenever the
classification result carries a `context_type` — in particular on every
classifier fallback path — failures of the file-processing trigger, context
resolution and prompt building are absorbed by their stages and the request
completes with `status = success` exactly when generation succeeds. -/
theorem generate_response_status_characterisation (env : OrchEnv)
    (message : String) (message_history : List ChatMsg)
    (building_id organization_id : Int) (building_name user_email : String)
    (file_ids : List String) (file_url : Option String) :
    ((generate_response env message message_history building_id organization_id
        building_name user_email file_ids file_url).status = "error" ↔
      ((classify env.classifyRemote message).context_type = none ∨
        ∃ e, generate_llm_response env.genRemote = .error e)) ∧
    ((generate_response env message message_history building_id organization_id
        building_name user_email file_ids file_url).status = "success" ∨
     (generate_response env message message_history building_id organization_id
        building_name user_email file_ids file_url).response =
       "I apologize, but I'm experiencing technical difficulties right now. Please try again in a moment.") := by
  cases hct : (classify env.classifyRemote message).context_type with
  | none =>
    constructor
    · constructor
      · intro _
        exact Or.inl rfl
      · intro _
        simp [generate_response, generateResponseTry, hct, generate_error_response,
          Bind.bind, Except.bind, Functor.map, Except.map]
    · right
      simp [generate_response, generateResponseTry, hct, generate_error_response,
        Bind.bind, Except.bind, Functor.map, Except.map]
  | some t =>
    cases hg : generate_llm_response env.genRemote with
    | error e =>
      constructor
      · constructor
        · intro _
          exact Or.inr ⟨e, rfl⟩
        · intro _
          simp [generate_response, generateResponseTry, hct, hg,
            generate_error_response, Bind.bind, Except.bind, Functor.map,
            Except.map]
      · right
        simp [generate_response, generateResponseTry, hct, hg,
          generate_error_response, Bind.bind, Except.bind, Functor.map,
          Except.map]
    | ok r =>
      have hsucc : (generate_response env message message_history building_id
          organization_id building_name user_email file_ids file_url).status =
          "success" := by
        simp [generate_response, generateResponseTry, hct, hg, format_response,
          Bind.bind, Except.bind, Functor.map, Except.map, Pure.pure,
          Except.pure]
      constructor
      · constructor
        · intro herr
          rw [hsucc] at herr
          exact absurd herr (by decide)
        · rintro (h | ⟨e, he⟩)
          · exact Option.noConfusion h
          · exact Except.noConfusion he
      · exact Or.inl hsucc

/-- Claim C4: if any embedding call raises during ingestion, the whole
ingestion fails atomically — the indexing handler reports `status = error`
and leaves every external store untouched: no points are upserted to the
vector index, no shadow chunk rows are inserted, and no chunk file is
written, for every event payload and initial store state. -/
theorem ingestion_atomic_on_embedding_failure (event : EIEvent)
    (pages : List PageText) (svc : EmbedSvc) (uuid : Nat → String)
    (stores : VectorStores) (e : String)
    (hfail : generate_embeddings ((create_chunks pages 512 50).map
      (fun c => c.text)) svc = .error e) :
    (embed_and_index_handler event (.ok pages) svc uuid stores).2 = stores ∧
    (embed_and_index_handler event (.ok pages) svc uuid stores).1.status =
      "error" := by
  obtain ⟨fu, bk, oi, bi, fi, pa⟩ := event
  cases fu <;> cases bk <;> cases oi <;> cases bi <;> cases fi <;> cases pa <;>
    first
      | exact ⟨rfl, rfl⟩
      | · cases pages with
          | nil => exact ⟨rfl, rfl⟩
          | cons p ps =>
            simp only [embed_and_index_handler, process_file_bytes,
              List.isEmpty_cons, hfail]
            exact ⟨rfl, rfl⟩

/-- Witness for C4 at a concrete input: one extracted page, an embedding
service that times out, an empty initial store. -/
theorem ingestion_atomic_on_embedding_failure_witness :
    generate_embeddings
        ((create_chunks [{ page := 1, words := ["hello", "world"] }] 512 50).map
          (fun c => c.text)) (fun _ => .error "timeout") = .error "timeout" ∧
    (embed_and_index_handler
        { file_url := some "s3://b/f.pdf", bucket := some "b", org_id := some 1,
          building_id := some 2, file_id := some "fid", path := some "p/f.pdf" }
        (.ok [{ page := 1, words := ["hello", "world"] }])
        (fun _ => .error "timeout") (fun i => toString i) {}).2 =
      ({} : VectorStores) ∧
    (embed_and_index_handler
        { file_url := some "s3://b/f.pdf", bucket := some "b", org_id := some 1,
          building_id := some 2, file_id := some "fid", path := some "p/f.pdf" }
        (.ok [{ page := 1, words := ["hello", "world"] }])
        (fun _ => .error "timeout") (fun i => toString i) {}).1.status =
      "error" := by
  have h := ingestion_atomic_on_embedding_failure
    { file_url := some "s3://b/f.pdf", bucket := some "b", org_id := some 1,
      building_id := some 2, file_id := some "fid", path := some "p/f.pdf" }
    [{ page := 1, words := ["hello", "world"] }]
    (fun _ => .error "timeout") (fun i => toString i) {} "timeout" rfl
  exact ⟨rfl, h.1, h.2⟩

/-- Helper for C5: within bounds, a Python slice is a drop of a take. -/
theorem pySlice_eq_drop_take {α : Type} (l : List α) (a b : Int) (ha : 0 ≤ a)
    (hal : a ≤ (l.length : Int)) (hb : 0 ≤ b) (hbl : b ≤ (l.length : Int)) :
    pySlice l a b = (l.take b.toNat).drop a.toNat := by
  unfold pySlice pySliceNorm
  rw [if_neg (by omega), if_neg (by omega)]
  have h1 : min b.toNat l.length = b.toNat := by omega
  have h2 : min a.toNat l.length = a.toNat := by omega
  rw [h1, h2]

/-- Helper for C5: the length of an in-bounds Python slice. -/
theorem pySlice_length {α : Type} (l : List α) (a b : Int) (ha : 0 ≤ a)
    (hal : a ≤ (l.length : Int)) (hb : 0 ≤ b) (hbl : b ≤ (l.length : Int)) :
    (pySlice l a b).length = b.toNat - a.toNat := by
  rw [pySlice_eq_drop_take l a b ha hal hb hbl]
  simp only [List.length_drop, List.length_take]
  omega

/-- Helper for C5: the element at an index inside the slice's window is a
member of the slice. -/
theorem getElem_mem_pySlice {α : Type} (l : List α) (a b : Int) (i : Nat)
    (h : i < l.length) (ha : 0 ≤ a) (hia : a ≤ (i : Int)) (hib : (i : Int) < b)
    (hbl : b ≤ (l.length : Int)) :
    l.get ⟨i, h⟩ ∈ pySlice l a b := by
  rw [pySlice_eq_drop_take l a b ha (by omega) (by omega) hbl]
  rw [List.mem_iff_getElem]
  refine ⟨i - a.toNat, ?_, ?_⟩
  · simp only [List.length_drop, List.length_take]
    omega
  · rw [List.getElem_drop, List.getElem_take]
    simp only [List.get_eq_getElem]
    congr 1
    omega

/-- Helper for C5: every element of a Python slice is an element of the
sliced list. -/
theorem mem_of_mem_pySlice {α : Type} {l : List α} {a b : Int} {x : α}
    (h : x ∈ pySlice l a b) : x ∈ l := by
  unfold pySlice at h
  exact List.mem_of_mem_take (List.drop_subset _ _ h)

/-- Helper for C5: when `overlap < window_size`, any fuel of at least the
number of words outstanding lets the sliding-window loop terminate. -/
theorem chunkGo_terminates (words : List String) (ws ov : Int) (hov : ov < ws) :
    ∀ (fuel : Nat) (start : Int), (words.length : Int) - start ≤ (fuel : Int) →
    ∃ cs, chunkGo words ws ov fuel start = some cs := by
  intro fuel
  induction fuel with
  | zero =>
    intro start h
    have hnlt : ¬ (start < (words.length : Int)) := by omega
    exact ⟨[], by simp [chunkGo, hnlt]⟩
  | succ n ih =>
    intro start h
    by_cases hlt : start < (words.length : Int)
    · obtain ⟨rest, hrest⟩ := ih (start + (ws - ov)) (by push_cast at h ⊢; omega)
      refine ⟨(if joinStripTruthy
            (pySlice words start (min (start + ws) (words.length : Int))) = true then
          [pySlice words start (min (start + ws) (words.length : Int))]
        else []) ++ rest, ?_⟩
      simp only [chunkGo, hlt, if_true, hrest]
    · exact ⟨[], by simp [chunkGo, hlt]⟩

/-- Helper for C5: a terminated loop run is insensitive to extra fuel. -/
theorem chunkGo_mono (words : List String) (ws ov : Int) :
    ∀ (fuel fuel2 : Nat) (start : Int) (cs : List (List String)),
      fuel ≤ fuel2 → chunkGo words ws ov fuel start = some cs →
      chunkGo words ws ov fuel2 start = some cs := by
  intro fuel
  induction fuel with
  | zero =>
    intro fuel2 start cs _ h0
    have hnlt : ¬ (start < (words.length : Int)) := by
      by_contra hc
      simp [chunkGo, hc] at h0
    have hcs : ([] : List (List String)) = cs := by
      simpa [chunkGo, hnlt] using h0
    subst hcs
    cases fuel2 with
    | zero => simp [chunkGo, hnlt]
    | succ m => simp [chunkGo, hnlt]
  | succ n ih =>
    intro fuel2 start cs hle h0
    obtain ⟨m, rfl⟩ : ∃ m, fuel2 = m + 1 := ⟨fuel2 - 1, by omega⟩
    by_cases hlt : start < (words.length : Int)
    · cases hrec : chunkGo words ws ov n (start + (ws - ov)) with
      | none => simp [chunkGo, hlt, hrec] at h0
      | some rest =>
        have hmono := ih m (start + (ws - ov)) rest (by omega) hrec
        simp only [chunkGo, hlt, if_true, hrec] at h0
        simp only [chunkGo, hlt, if_true, hmono]
        exact h0
    · have hcs : ([] : List (List String)) = cs := by
        simpa [chunkGo, hlt] using h0
      subst hcs
      simp [chunkGo, hlt]

/-- Helper for C5: every chunk the loop emits has at most `window_size`
words. -/
theorem chunkGo_chunk_size (words : List String) (ws ov : Int)
    (hws : 1 ≤ ws) (hov0 : 0 ≤ ov) (hov : ov < ws) :
    ∀ (fuel : Nat) (start : Int) (cs : List (List String)), 0 ≤ start →
      chunkGo words ws ov fuel start = some cs →
      ∀ c ∈ cs, (c.length : Int) ≤ ws := by
  intro fuel
  induction fuel with
  | zero =>
    intro start cs _ h0 c hc
    have hnlt : ¬ (start < (words.length : Int)) := by
      by_contra hcon
      simp [chunkGo, hcon] at h0
    have hcs : ([] : List (List String)) = cs := by
      simpa [chunkGo, hnlt] using h0
    subst hcs
    simp at hc
  | succ n ih =>
    intro start cs hstart h0 c hc
    by_cases hlt : start < (words.length : Int)
    · cases hrec : chunkGo words ws ov n (start + (ws - ov)) with
      | none => simp [chunkGo, hlt, hrec] at h0
      | some rest =>
        simp only [chunkGo, hlt, if_true, hrec, Option.some.injEq] at h0
        rw [← h0] at hc
        rw [List.mem_append] at hc
        rcases hc with hc | hc
        · have hcw : c = pySlice words start (min (start + ws) (words.length : Int)) := by
            by_cases ht : joinStripTruthy
                (pySlice words start (min (start + ws) (words.length : Int))) = true
            · simpa [ht] using hc
            · simp [ht] at hc
          rw [hcw, pySlice_length words _ _ hstart (by omega) (by omega) (by omega)]
          omega
        · exact ih (start + (ws - ov)) rest (by omega) hrec c hc
    · have hcs : ([] : List (List String)) = cs := by
        simpa [chunkGo, hlt] using h0
      subst hcs
      simp at hc

/-- Helper for C5: when every word contains a non-whitespace character, the
loop covers every word position at or after the current start — the emitted
chunks are never filtered out by the `if chunk_text.strip():` guard, and
consecutive windows leave no gap because the start advances by
`window_size - overlap ≤ window_size`. -/
theorem chunkGo_covers (words : List String) (ws ov : Int)
    (_hws : 1 ≤ ws) (hov0 : 0 ≤ ov) (hov : ov < ws)
    (hwords : ∀ w ∈ words, w.toList.any (fun c => !c.isWhitespace) = true) :
    ∀ (fuel : Nat) (start : Int) (cs : List (List String)), 0 ≤ start →
      chunkGo words ws ov fuel start = some cs →
      ∀ (i : Nat) (h : i < words.length), start ≤ (i : Int) →
        ∃ c ∈ cs, words.get ⟨i, h⟩ ∈ c := by
  intro fuel
  induction fuel with
  | zero =>
    intro start cs _ h0 i h hstart
    have hnlt : ¬ (start < (words.length : Int)) := by
      by_contra hcon
      simp [chunkGo, hcon] at h0
    omega
  | succ n ih =>
    intro start cs hstart0 h0 i h hstart
    by_cases hlt : start < (words.length : Int)
    · cases hrec : chunkGo words ws ov n (start + (ws - ov)) with
      | none => simp [chunkGo, hlt, hrec] at h0
      | some rest =>
        simp only [chunkGo, hlt, if_true, hrec, Option.some.injEq] at h0
        set e : Int := min (start + ws) (words.length : Int) with he
        by_cases hie : (i : Int) < e
        · -- the word falls inside the current window
          have hmem : words.get ⟨i, h⟩ ∈ pySlice words start e := by
            apply getElem_mem_pySlice words start e i h hstart0 hstart hie
            omega
          have hne : joinStripTruthy (pySlice words start e) = true := by
            rw [joinStripTruthy, List.any_eq_true]
            exact ⟨_, hmem, hwords _ (mem_of_mem_pySlice hmem)⟩
          refine ⟨pySlice words start e, ?_, hmem⟩
          rw [← h0, hne]
          simp
        · -- the word falls beyond the window: the next start still precedes it
          have hie2 : start + (ws - ov) ≤ (i : Int) := by omega
          obtain ⟨c, hc, hcm⟩ := ih (start + (ws - ov)) rest (by omega) hrec i h hie2
          refine ⟨c, ?_, hcm⟩
          rw [← h0]
          rw [List.mem_append]
          exact Or.inr hc
    · omega

/-- Claim C5: for every word list and every configuration with
`window_size ≥ 1` and `0 ≤ overlap < window_size`, the chunker terminates —
one fixed fuel (the word count) suffices and the result is stable under any
larger fuel —, every word of the cleaned whitespace-tokenized input (each
word of which is non-empty and whitespace-free, hence contains a
non-whitespace character) appears in at least one emitted chunk, every
emitted chunk has at most `window_size` words, and an input of at most
`window_size` words yields exactly one chunk, the whole input. -/
theorem chunk_text_terminates_and_covers (words : List String)
    (window_size overlap : Int) (hws : 1 ≤ window_size)
    (hov0 : 0 ≤ overlap) (hov : overlap < window_size)
    (hwords : ∀ w ∈ words, w.toList.any (fun c => !c.isWhitespace) = true) :
    ∃ cs, (∀ fuel : Nat, words.length ≤ fuel →
        chunk_text words window_size overlap fuel = some cs) ∧
      (∀ c ∈ cs, (c.length : Int) ≤ window_size) ∧
      (∀ w ∈ words, ∃ c ∈ cs, w ∈ c) ∧
      ((words.length : Int) ≤ window_size → cs = [words]) := by
  by_cases hsmall : (words.length : Int) ≤ window_size
  · refine ⟨[words], ?_, ?_, ?_, fun _ => rfl⟩
    · intro fuel _
      simp [chunk_text, hsmall]
    · intro c hc
      rw [List.mem_singleton] at hc
      subst hc
      exact hsmall
    · intro w hw
      exact ⟨words, List.mem_singleton.mpr rfl, hw⟩
  · obtain ⟨cs, hcs⟩ := chunkGo_terminates words window_size overlap hov
      words.length 0 (by omega)
    refine ⟨cs, ?_, ?_, ?_, fun hcon => absurd hcon hsmall⟩
    · intro fuel hfuel
      rw [chunk_text, if_neg hsmall]
      exact chunkGo_mono words window_size overlap words.length fuel 0 cs hfuel hcs
    · exact chunkGo_chunk_size words window_size overlap hws hov0 hov
        words.length 0 cs le_rfl hcs
    · intro w hw
      obtain ⟨i, hi⟩ := List.mem_iff_get.mp hw
      obtain ⟨c, hc, hcm⟩ := chunkGo_covers words window_size overlap hws hov0 hov
        hwords words.length 0 cs le_rfl hcs i.1 i.2 (by positivity)
      refine ⟨c, hc, ?_⟩
      rw [← hi]
      exact hcm

/-- Witness for C5 at a concrete input: three whitespace-free words,
`window_size = 2`, `overlap = 1`. -/
theorem chunk_text_terminates_and_covers_witness :
    ((1 : Int) ≤ 2 ∧ (0 : Int) ≤ 1 ∧ (1 : Int) < 2) ∧
    (∃ cs, (∀ fuel : Nat, ["hello", "world", "foo"].length ≤ fuel →
        chunk_text ["hello", "world", "foo"] 2 1 fuel = some cs) ∧
      (∀ c ∈ cs, (c.length : Int) ≤ 2) ∧
      (∀ w ∈ ["hello", "world", "foo"], ∃ c ∈ cs, w ∈ c) ∧
      ((["hello", "world", "foo"].length : Int) ≤ 2 →
        cs = [["hello", "world", "foo"]])) :=
  ⟨⟨by norm_num, by norm_num, by norm_num⟩,
    chunk_text_terminates_and_covers ["hello", "world", "foo"] 2 1
      (by norm_num) (by norm_num) (by norm_num) (by decide)⟩

end RagPipeline
